import Mathlib

/-!
Verification of the volume-metadata resolver (pkg/util/types/pvc.go).

The Go source is shallowly embedded: the Kubernetes record types become Lean
structures, the untyped objects held by a cache store become a tagged union,
a cache store becomes a function from string keys to the Go lookup triple,
and the cluster API client becomes a function from (namespace, name) to a
Go result pair.  Nil-pointer dereferences (which in Go raise a runtime
panic, not a returned error) are made explicit through the GoResult type.
-/

namespace Types

/-- Volume mode enum of a claim spec (k8sv1.PersistentVolumeMode). -/
inductive PersistentVolumeMode where
  | PersistentVolumeBlock
  | PersistentVolumeFilesystem
deriving DecidableEq, Repr

/-- Access mode enum of a claim spec (k8sv1.PersistentVolumeAccessMode). -/
inductive PersistentVolumeAccessMode where
  | ReadWriteOnce
  | ReadOnlyMany
  | ReadWriteMany
  | ReadWriteOncePod
deriving DecidableEq, Repr

/-- Claim phase enum (k8sv1.PersistentVolumeClaimPhase). -/
inductive PersistentVolumeClaimPhase where
  | ClaimPending
  | ClaimBound
  | ClaimLost
deriving DecidableEq, Repr

/-- Host-path volume source (k8sv1.HostPathVolumeSource): the fields consumed
by the resolver, namely the path string. -/
structure HostPathVolumeSource where
  path : String
deriving DecidableEq, Repr

/-- The fields of k8sv1.PersistentVolumeClaimSpec consumed by the resolver. -/
structure PersistentVolumeClaimSpec where
  accessModes : List PersistentVolumeAccessMode
  volumeName : String
  volumeMode : Option PersistentVolumeMode
deriving DecidableEq, Repr

/-- The fields of k8sv1.PersistentVolumeClaimStatus consumed by the resolver. -/
structure PersistentVolumeClaimStatus where
  phase : PersistentVolumeClaimPhase
deriving DecidableEq, Repr

/-- A claim record (k8sv1.PersistentVolumeClaim), restricted to the fields the
resolver reads. -/
structure PersistentVolumeClaim where
  spec : PersistentVolumeClaimSpec
  status : PersistentVolumeClaimStatus
deriving DecidableEq, Repr

/-- The fields of k8sv1.PersistentVolumeSpec consumed by the resolver: the
optional host-path source; every other volume source kind is summarised by
hostPath = none. -/
structure PersistentVolumeSpec where
  hostPath : Option HostPathVolumeSource
deriving DecidableEq, Repr

/-- A volume record (k8sv1.PersistentVolume), restricted to the fields the
resolver reads. -/
structure PersistentVolume where
  spec : PersistentVolumeSpec
deriving DecidableEq, Repr

/-- An object held by a cache store.  Go hands such objects back as
interface values, so the store can in principle return a claim, a volume, or
anything else; the Go code discovers which by a runtime type assertion. -/
inductive StoreObj where
  | pvcObj (c : PersistentVolumeClaim)
  | pvObj (v : PersistentVolume)
  | otherObj (descr : String)
deriving DecidableEq, Repr

/-- Errors produced or propagated by the store-backed operations: an opaque
error returned by store.GetByKey itself, and the three fmt.Errorf values the
source constructs. -/
inductive GoError where
  | lookupErr (msg : String)
  | notAPVC (obj : Option StoreObj)
  | unableToFindPVC (ns claimName : String)
  | unableToFindPV (name : String)
deriving DecidableEq, Repr

/-- A cache store (cache.Store).  GetByKey returns the Go triple
(object, exists flag, error); the object slot is an interface value, so it is
an optional StoreObj (none models a nil interface). -/
structure Store where
  getByKey : String → Option StoreObj × Bool × Option GoError

/-- An error returned by the cluster API client.  errors.IsNotFound is
modelled by the isNotFound flag. -/
structure APIError where
  isNotFound : Bool
  msg : String
deriving DecidableEq, Repr

/-- The cluster API client (kubecli.KubevirtClient), restricted to the one
call the source issues: CoreV1().PersistentVolumeClaims(ns).Get(name). -/
structure KubevirtClient where
  getPVC : String → String → Option PersistentVolumeClaim × Option APIError

/-- Outcome of running a Go function body: either a normal return of the
result tuple, or a runtime panic (e.g. a nil-pointer dereference), which in
Go aborts the call without returning anything. -/
inductive GoResult (α : Type) where
  | ret (val : α)
  | panicked (msg : String)
deriving DecidableEq, Repr

/-- True exactly on a normal return. -/
def GoResult.isRet {α : Type} : GoResult α → Bool
  | .ret _ => true
  | .panicked _ => false

/-- The message of the Go runtime panic raised by dereferencing a nil
pointer. -/
def nilDerefMsg : String :=
  "runtime error: invalid memory address or nil pointer dereference"

/-- errors.IsNotFound applied to an optional error (false on nil). -/
def errIsNotFound (err : Option APIError) : Bool :=
  match err with
  | some e => e.isNotFound
  | none => false

/-- isPVCBlock: pvc.Spec.VolumeMode != nil && *pvc.Spec.VolumeMode ==
k8sv1.PersistentVolumeBlock. -/
def isPVCBlock (pvc : PersistentVolumeClaim) : Bool :=
  match pvc.spec.volumeMode with
  | some m => m == PersistentVolumeMode.PersistentVolumeBlock
  | none => false

/-- IsPVCShared: loops over pvc.Spec.AccessModes and returns true on the
first ReadWriteMany entry, false if the loop finishes. -/
def IsPVCShared (pvc : PersistentVolumeClaim) : Bool :=
  pvc.spec.accessModes.any
    (fun accessMode => accessMode == PersistentVolumeAccessMode.ReadWriteMany)

/-- IsPVCBlockFromStore: looks the claim up by the composite key
namespace/claimName, passes lookup errors and absence through, type-checks
the object and either derives the block predicate or fails with the
not-a-PVC error carrying the unexpected object. -/
def IsPVCBlockFromStore (store : Store) (ns claimName : String) :
    GoResult (Option PersistentVolumeClaim × Bool × Bool × Option GoError) :=
  let r := store.getByKey (ns ++ "/" ++ claimName)
  let obj := r.1
  let exs := r.2.1
  let err := r.2.2
  if err.isSome || !exs then
    .ret (none, exs, false, err)
  else
    match obj with
    | some (StoreObj.pvcObj pvc) => .ret (some pvc, true, isPVCBlock pvc, none)
    | _ => .ret (none, false, false, some (GoError.notAPVC obj))

/-- IsPVCBlockFromClient: fetches the claim from the API, suppresses
NotFound into a benign absent result, propagates every other error, and on
success derives the block predicate.  If the client were to hand back a nil
claim with a nil error, isPVCBlock would dereference the nil pointer and
panic. -/
def IsPVCBlockFromClient (client : KubevirtClient) (ns claimName : String) :
    GoResult (Option PersistentVolumeClaim × Bool × Bool × Option APIError) :=
  let r := client.getPVC ns claimName
  let pvc := r.1
  let err := r.2
  if errIsNotFound err then
    .ret (none, false, false, none)
  else
    match err with
    | some e => .ret (none, false, false, some e)
    | none =>
      match pvc with
      | some c => .ret (some c, true, isPVCBlock c, none)
      | none => .panicked nilDerefMsg

/-- IsSharedPVCFromClient: fetches the claim from the API; on a nil error
applies IsPVCShared, otherwise leaves the shared flag at its zero value
false; returns the fetched pointer, the flag and the error unchanged
(NotFound is not suppressed here). -/
def IsSharedPVCFromClient (client : KubevirtClient) (ns claimName : String) :
    GoResult (Option PersistentVolumeClaim × Bool × Option APIError) :=
  let r := client.getPVC ns claimName
  let pvc := r.1
  let err := r.2
  match err with
  | none =>
    match pvc with
    | some c => .ret (pvc, IsPVCShared c, none)
    | none => .panicked nilDerefMsg
  | some e => .ret (pvc, false, some e)

/-- GetPVCHostPathFromStore: chained two-store resolution.  Claim lookup
errors and absence are hard failures; a type mismatch leaves the local pvc
pointer nil, and the subsequent pvc.Status.Phase read panics.  For a bound
claim with a volume name, the volume lookup repeats the pattern (with the
same nil-pv panic on mismatch), and a host-path source yields its path;
every other source yields the empty string with no error. -/
def GetPVCHostPathFromStore (pvcStore pvStore : Store) (ns claimName : String) :
    GoResult (String × Option GoError) :=
  let r := pvcStore.getByKey (ns ++ "/" ++ claimName)
  let obj := r.1
  let exs := r.2.1
  let err := r.2.2
  if err.isSome then
    .ret ("", err)
  else if !exs then
    .ret ("", some (GoError.unableToFindPVC ns claimName))
  else
    let pvc : Option PersistentVolumeClaim :=
      match obj with
      | some (StoreObj.pvcObj c) => some c
      | _ => none
    match pvc with
    | none => .panicked nilDerefMsg
    | some pvc =>
      if pvc.status.phase == PersistentVolumeClaimPhase.ClaimBound
          && pvc.spec.volumeName != "" then
        let r2 := pvStore.getByKey pvc.spec.volumeName
        let obj2 := r2.1
        let exs2 := r2.2.1
        let err2 := r2.2.2
        if err2.isSome then
          .ret ("", err2)
        else if !exs2 then
          .ret ("", some (GoError.unableToFindPV pvc.spec.volumeName))
        else
          let pv : Option PersistentVolume :=
            match obj2 with
            | some (StoreObj.pvObj v) => some v
            | _ => none
          match pv with
          | none => .panicked nilDerefMsg
          | some pv =>
            match pv.spec.hostPath with
            | some hp => .ret (hp.path, none)
            | none => .ret ("", none)
      else
        .ret ("", none)

/-! Concrete fixtures: a pair of stores and two clients used to witness the
theorems below on explicit inputs. -/

/-- The namespace used by the concrete fixtures. -/
def wNs : String := "ns"

/-- Claim name bound to a host-path volume. -/
def wC1name : String := "c1"

/-- Claim name of a pending claim. -/
def wC2name : String := "c2"

/-- Claim name of a bound claim whose volume store entry is mistyped. -/
def wC3name : String := "c3"

/-- Claim name of a bound claim whose volume is missing from the store. -/
def wC4name : String := "c4"

/-- Claim name of a bound claim whose volume has a non-host-path source. -/
def wC5name : String := "c5"

/-- Key whose claim store entry is not a claim record. -/
def wBadName : String := "bad"

/-- Claim name absent from the claim store. -/
def wAbsentName : String := "absent"

/-- The host path carried by the fixture volume. -/
def wPath : String := "/data/x"

/-- The empty string, named so it can be passed as an explicit argument. -/
def wEmpty : String := ""

/-- Host-path source of the fixture volume. -/
def wHostPathSrc : HostPathVolumeSource := { path := wPath }

/-- A claim bound to volume v1, block mode, shared access. -/
def wClaimBound : PersistentVolumeClaim :=
  { spec := { accessModes := [PersistentVolumeAccessMode.ReadWriteMany],
              volumeName := "v1",
              volumeMode := some PersistentVolumeMode.PersistentVolumeBlock },
    status := { phase := PersistentVolumeClaimPhase.ClaimBound } }

/-- A pending claim with no bound volume. -/
def wClaimPending : PersistentVolumeClaim :=
  { spec := { accessModes := [], volumeName := "", volumeMode := none },
    status := { phase := PersistentVolumeClaimPhase.ClaimPending } }

/-- A bound claim naming volume v2, whose store entry is mistyped. -/
def wClaimBoundMismatch : PersistentVolumeClaim :=
  { spec := { accessModes := [], volumeName := "v2", volumeMode := none },
    status := { phase := PersistentVolumeClaimPhase.ClaimBound } }

/-- A bound claim naming volume v3, which is absent from the volume store. -/
def wClaimBoundMissing : PersistentVolumeClaim :=
  { spec := { accessModes := [], volumeName := "v3", volumeMode := none },
    status := { phase := PersistentVolumeClaimPhase.ClaimBound } }

/-- A bound claim naming volume v4, which has a non-host-path source. -/
def wClaimBoundOther : PersistentVolumeClaim :=
  { spec := { accessModes := [], volumeName := "v4", volumeMode := none },
    status := { phase := PersistentVolumeClaimPhase.ClaimBound } }

/-- A volume backed by a host path. -/
def wVolHost : PersistentVolume :=
  { spec := { hostPath := some wHostPathSrc } }

/-- A volume backed by some other volume source. -/
def wVolOther : PersistentVolume :=
  { spec := { hostPath := none } }

/-- The mistyped object sitting under the key ns/bad in the claim store. -/
def wBadObj : Option StoreObj := some (StoreObj.otherObj ("a pod"))

/-- The mistyped object sitting under the key v2 in the volume store. -/
def wBadVolObj : Option StoreObj := some (StoreObj.otherObj ("a secret"))

/-- The fixture claim store. -/
def wPvcStore : Store :=
  { getByKey := fun key =>
      if key = "ns/c1" then (some (StoreObj.pvcObj wClaimBound), true, none)
      else if key = "ns/c2" then (some (StoreObj.pvcObj wClaimPending), true, none)
      else if key = "ns/c3" then (some (StoreObj.pvcObj wClaimBoundMismatch), true, none)
      else if key = "ns/c4" then (some (StoreObj.pvcObj wClaimBoundMissing), true, none)
      else if key = "ns/c5" then (some (StoreObj.pvcObj wClaimBoundOther), true, none)
      else if key = "ns/bad" then (wBadObj, true, none)
      else (none, false, none) }

/-- The fixture volume store. -/
def wPvStore : Store :=
  { getByKey := fun key =>
      if key = "v1" then (some (StoreObj.pvObj wVolHost), true, none)
      else if key = "v2" then (wBadVolObj, true, none)
      else if key = "v4" then (some (StoreObj.pvObj wVolOther), true, none)
      else (none, false, none) }

/-- A client whose get always succeeds with the bound fixture claim. -/
def wOkClient : KubevirtClient :=
  { getPVC := fun _ _ => (some wClaimBound, none) }

/-- The NotFound error reported by the fixture failing client. -/
def wNotFoundErr : APIError :=
  { isNotFound := true, msg := "persistentvolumeclaims not found" }

/-- A client whose get always fails with NotFound. -/
def wNotFoundClient : KubevirtClient :=
  { getPVC := fun _ _ => (none, some wNotFoundErr) }

/-! The claims. -/

/-- Claim C1, counterexample to the claim as stated: with a claim store whose
entry under ns/bad is a non-claim object (a well-typed successful lookup of
the wrong type), GetPVCHostPathFromStore does not silently no-op and
continue to a normal return; it dereferences the nil claim pointer while
reading the phase and panics, so no return value is produced at all. -/
theorem claim_C1_counterexample :
    (GetPVCHostPathFromStore wPvcStore wPvStore wNs wBadName).isRet = false ∧
    GetPVCHostPathFromStore wPvcStore wPvStore wNs wBadName =
      .panicked nilDerefMsg := by
  constructor
  · decide
  · decide

/-- Claim C1, amended: when the claim store (resp. the volume store) returns
a successful, existing lookup whose object is not a claim (resp. not a
volume) record, GetPVCHostPathFromStore does not return a type-mismatch
error; the record pointer silently stays nil, and the subsequent phase
(resp. host-path) inspection dereferences that nil pointer, so the operation
ends in a runtime nil-pointer panic instead of returning. -/
theorem claim_C1_nil_deref_panics :
    (∀ (pvcStore pvStore : Store) (ns n : String) (obj : Option StoreObj),
      pvcStore.getByKey (ns ++ "/" ++ n) = (obj, true, none) →
      (∀ c, obj ≠ some (StoreObj.pvcObj c)) →
      GetPVCHostPathFromStore pvcStore pvStore ns n = .panicked nilDerefMsg) ∧
    (∀ (pvcStore pvStore : Store) (ns n : String) (c : PersistentVolumeClaim)
      (obj2 : Option StoreObj),
      pvcStore.getByKey (ns ++ "/" ++ n) = (some (StoreObj.pvcObj c), true, none) →
      c.status.phase = PersistentVolumeClaimPhase.ClaimBound →
      c.spec.volumeName ≠ "" →
      pvStore.getByKey c.spec.volumeName = (obj2, true, none) →
      (∀ v, obj2 ≠ some (StoreObj.pvObj v)) →
      GetPVCHostPathFromStore pvcStore pvStore ns n = .panicked nilDerefMsg) := by
  constructor
  · intro pvcStore pvStore ns n obj h hm
    simp only [GetPVCHostPathFromStore, h]
    cases obj with
    | none => simp
    | some o =>
      cases o with
      | pvcObj c => exact absurd rfl (hm c)
      | pvObj v => simp
      | otherObj d => simp
  · intro pvcStore pvStore ns n c obj2 h1 hb hv h2 hm
    simp only [GetPVCHostPathFromStore, h1]
    cases obj2 with
    | none => simp [hb, hv, h2]
    | some o =>
      cases o with
      | pvcObj c2 => simp [hb, hv, h2]
      | pvObj v => exact absurd rfl (hm v)
      | otherObj d => simp [hb, hv, h2]

/-- Claim C1, witness: the amended statement instantiated on the fixture
stores, once with a mistyped claim entry and once with a mistyped volume
entry; both runs end in the nil-dereference panic. -/
theorem claim_C1_witness :
    GetPVCHostPathFromStore wPvcStore wPvStore wNs wBadName =
      .panicked nilDerefMsg ∧
    GetPVCHostPathFromStore wPvcStore wPvStore wNs wC3name =
      .panicked nilDerefMsg :=
  ⟨claim_C1_nil_deref_panics.1 wPvcStore wPvStore wNs wBadName wBadObj
      (by decide) (by intro c h; simp [wBadObj] at h),
   claim_C1_nil_deref_panics.2 wPvcStore wPvStore wNs wC3name
      wClaimBoundMismatch wBadVolObj (by decide) (by decide) (by decide)
      (by decide) (by intro v h; simp [wBadVolObj] at h)⟩

/-- Claim C2: when the store lookup for ns/n succeeds with claim c and the
client get for (ns, n) succeeds with the same c, IsPVCBlockFromStore and
IsPVCBlockFromClient return the identical quadruple
(c, true, isPVCBlock c, nil). -/
theorem claim_C2_store_client_equiv (store : Store) (client : KubevirtClient)
    (ns n : String) (c : PersistentVolumeClaim)
    (hs : store.getByKey (ns ++ "/" ++ n) = (some (StoreObj.pvcObj c), true, none))
    (hc : client.getPVC ns n = (some c, none)) :
    IsPVCBlockFromStore store ns n = .ret (some c, true, isPVCBlock c, none) ∧
    IsPVCBlockFromClient client ns n =
      .ret (some c, true, isPVCBlock c, none) := by
  constructor
  · simp [IsPVCBlockFromStore, hs]
  · simp [IsPVCBlockFromClient, hc, errIsNotFound]

/-- Claim C2, witness: on the fixture store and the fixture client, both of
which hold the same bound claim under ns/c1, the two block-mode queries
return the identical quadruple. -/
theorem claim_C2_witness :
    IsPVCBlockFromStore wPvcStore wNs wC1name =
      .ret (some wClaimBound, true, isPVCBlock wClaimBound, none) ∧
    IsPVCBlockFromClient wOkClient wNs wC1name =
      .ret (some wClaimBound, true, isPVCBlock wClaimBound, none) :=
  claim_C2_store_client_equiv wPvcStore wOkClient wNs wC1name wClaimBound
    (by decide) rfl

/-- Claim C3: given a successful well-typed claim lookup, the resolver
returns the bound volume's host path with no error exactly when the claim is
Bound with a non-empty volume name and the volume found under that name
carries a host-path source; if the claim is not Bound or names no volume it
returns the empty string with no error for every volume store (the volume
lookup is never consulted); if the volume is found, well-typed, and carries
any other source it returns the empty string with no error; and conversely a
non-empty error-free result forces all of those conditions. -/
theorem claim_C3_host_path_resolution :
    (∀ (pvcStore pvStore : Store) (ns n : String) (c : PersistentVolumeClaim)
      (v : PersistentVolume) (hps : HostPathVolumeSource),
      pvcStore.getByKey (ns ++ "/" ++ n) = (some (StoreObj.pvcObj c), true, none) →
      c.status.phase = PersistentVolumeClaimPhase.ClaimBound →
      c.spec.volumeName ≠ "" →
      pvStore.getByKey c.spec.volumeName = (some (StoreObj.pvObj v), true, none) →
      v.spec.hostPath = some hps →
      GetPVCHostPathFromStore pvcStore pvStore ns n = .ret (hps.path, none)) ∧
    (∀ (pvcStore : Store) (ns n : String) (c : PersistentVolumeClaim),
      pvcStore.getByKey (ns ++ "/" ++ n) = (some (StoreObj.pvcObj c), true, none) →
      ¬(c.status.phase = PersistentVolumeClaimPhase.ClaimBound ∧
        c.spec.volumeName ≠ "") →
      ∀ pvStore : Store,
        GetPVCHostPathFromStore pvcStore pvStore ns n = .ret ("", none)) ∧
    (∀ (pvcStore pvStore : Store) (ns n : String) (c : PersistentVolumeClaim)
      (v : PersistentVolume),
      pvcStore.getByKey (ns ++ "/" ++ n) = (some (StoreObj.pvcObj c), true, none) →
      pvStore.getByKey c.spec.volumeName = (some (StoreObj.pvObj v), true, none) →
      v.spec.hostPath = none →
      GetPVCHostPathFromStore pvcStore pvStore ns n = .ret ("", none)) ∧
    (∀ (pvcStore pvStore : Store) (ns n : String) (c : PersistentVolumeClaim)
      (p : String),
      pvcStore.getByKey (ns ++ "/" ++ n) = (some (StoreObj.pvcObj c), true, none) →
      GetPVCHostPathFromStore pvcStore pvStore ns n = .ret (p, none) →
      p ≠ "" →
      c.status.phase = PersistentVolumeClaimPhase.ClaimBound ∧
      c.spec.volumeName ≠ "" ∧
      ∃ (v : PersistentVolume) (hps : HostPathVolumeSource),
        pvStore.getByKey c.spec.volumeName =
          (some (StoreObj.pvObj v), true, none) ∧
        v.spec.hostPath = some hps ∧ hps.path = p) := by
  refine ⟨?_, ?_, ?_, ?_⟩
  · intro pvcStore pvStore ns n c v hps h1 h2 h3 h4 h5
    simp [GetPVCHostPathFromStore, h1, h2, h3, h4, h5]
  · intro pvcStore ns n c h1 h2 pvStore
    simp only [GetPVCHostPathFromStore, h1]
    have : (c.status.phase == PersistentVolumeClaimPhase.ClaimBound
        && c.spec.volumeName != "") = false := by
      rcases Decidable.not_and_iff_or_not.mp h2 with h | h
      · simp [h]
      · simp only [ne_eq, not_not] at h
        simp [h]
    simp [this]
  · intro pvcStore pvStore ns n c v h1 h2 h3
    by_cases hb : c.status.phase = PersistentVolumeClaimPhase.ClaimBound ∧
        c.spec.volumeName ≠ ""
    · simp [GetPVCHostPathFromStore, h1, hb.1, hb.2, h2, h3]
    · simp only [GetPVCHostPathFromStore, h1]
      have : (c.status.phase == PersistentVolumeClaimPhase.ClaimBound
          && c.spec.volumeName != "") = false := by
        rcases Decidable.not_and_iff_or_not.mp hb with h | h
        · simp [h]
        · simp only [ne_eq, not_not] at h
          simp [h]
      simp [this]
  · intro pvcStore pvStore ns n c p h1 hres hp
    simp only [GetPVCHostPathFromStore, h1] at hres
    simp only [Option.isSome_none, Bool.false_eq_true, if_false, Bool.not_true,
      if_true] at hres
    by_cases hb : (c.status.phase == PersistentVolumeClaimPhase.ClaimBound
        && c.spec.volumeName != "") = true
    · rcases h2 : pvStore.getByKey c.spec.volumeName with ⟨obj2, exs2, err2⟩
      simp only [hb, if_true, h2] at hres
      have hbp := Bool.and_elim_left hb
      have hbv := Bool.and_elim_right hb
      refine ⟨by simpa using hbp, by simpa using hbv, ?_⟩
      cases err2 with
      | some e2 => simp at hres
      | none =>
        cases exs2 with
        | false => simp at hres
        | true =>
          simp only [Option.isSome_none, Bool.false_eq_true, if_false,
            Bool.not_true, if_true] at hres
          cases obj2 with
          | none => simp at hres
          | some o =>
            cases o with
            | pvcObj c2 => simp at hres
            | otherObj d => simp at hres
            | pvObj v =>
              cases hhp : v.spec.hostPath with
              | none => simp [hhp] at hres; exact absurd hres.symm hp
              | some hps =>
                simp only [hhp] at hres
                simp at hres
                exact ⟨v, hps, rfl, hhp, hres⟩
    · simp only [Bool.not_eq_true] at hb
      simp [hb] at hres
      exact absurd hres.symm hp

/-- Claim C3, witness: on the fixtures, the bound host-path claim resolves
to /data/x, the pending claim and the claim bound to a non-host-path volume
resolve to the empty string with no error, and the converse direction
recovers the bound/host-path conditions from the non-empty result. -/
theorem claim_C3_witness :
    GetPVCHostPathFromStore wPvcStore wPvStore wNs wC1name =
      .ret (wPath, none) ∧
    GetPVCHostPathFromStore wPvcStore wPvStore wNs wC2name =
      .ret ("", none) ∧
    GetPVCHostPathFromStore wPvcStore wPvStore wNs wC5name =
      .ret ("", none) ∧
    (wClaimBound.status.phase = PersistentVolumeClaimPhase.ClaimBound ∧
     wClaimBound.spec.volumeName ≠ "" ∧
     ∃ (v : PersistentVolume) (hps : HostPathVolumeSource),
       wPvStore.getByKey wClaimBound.spec.volumeName =
         (some (StoreObj.pvObj v), true, none) ∧
       v.spec.hostPath = some hps ∧ hps.path = wPath) :=
  ⟨claim_C3_host_path_resolution.1 wPvcStore wPvStore wNs wC1name wClaimBound
      wVolHost wHostPathSrc (by decide) (by decide) (by decide) (by decide)
      (by decide),
   claim_C3_host_path_resolution.2.1 wPvcStore wNs wC2name wClaimPending
      (by decide) (by decide) wPvStore,
   claim_C3_host_path_resolution.2.2.1 wPvcStore wPvStore wNs wC5name
      wClaimBoundOther wVolOther (by decide) (by decide) (by decide),
   claim_C3_host_path_resolution.2.2.2 wPvcStore wPvStore wNs wC1name
      wClaimBound wPath (by decide) (by decide) (by decide)⟩

/-- Claim C4: in GetPVCHostPathFromStore absence is a hard failure at both
lookup stages: if the claim key is missing or its lookup errors, and
likewise if the claim is Bound with a non-empty volume name but that volume
is missing or its lookup errors, the function returns the empty path
together with a non-nil error. -/
theorem claim_C4_absence_hard_failure :
    (∀ (pvcStore pvStore : Store) (ns n : String) (obj : Option StoreObj)
      (exs : Bool) (err : Option GoError),
      pvcStore.getByKey (ns ++ "/" ++ n) = (obj, exs, err) →
      (err ≠ none ∨ exs = false) →
      ∃ e : GoError,
        GetPVCHostPathFromStore pvcStore pvStore ns n = .ret ("", some e)) ∧
    (∀ (pvcStore pvStore : Store) (ns n : String) (c : PersistentVolumeClaim)
      (obj2 : Option StoreObj) (exs2 : Bool) (err2 : Option GoError),
      pvcStore.getByKey (ns ++ "/" ++ n) = (some (StoreObj.pvcObj c), true, none) →
      c.status.phase = PersistentVolumeClaimPhase.ClaimBound →
      c.spec.volumeName ≠ "" →
      pvStore.getByKey c.spec.volumeName = (obj2, exs2, err2) →
      (err2 ≠ none ∨ exs2 = false) →
      ∃ e : GoError,
        GetPVCHostPathFromStore pvcStore pvStore ns n = .ret ("", some e)) := by
  constructor
  · intro pvcStore pvStore ns n obj exs err h habs
    rcases habs with he | hx
    · match err, he with
      | some e, _ => exact ⟨e, by simp [GetPVCHostPathFromStore, h]⟩
    · cases err with
      | some e => exact ⟨e, by simp [GetPVCHostPathFromStore, h]⟩
      | none =>
        exact ⟨GoError.unableToFindPVC ns n,
          by simp [GetPVCHostPathFromStore, h, hx]⟩
  · intro pvcStore pvStore ns n c obj2 exs2 err2 h1 hb hv h2 habs
    rcases habs with he | hx
    · match err2, he with
      | some e, _ =>
        exact ⟨e, by simp [GetPVCHostPathFromStore, h1, hb, hv, h2]⟩
    · cases err2 with
      | some e => exact ⟨e, by simp [GetPVCHostPathFromStore, h1, hb, hv, h2]⟩
      | none =>
        exact ⟨GoError.unableToFindPV c.spec.volumeName,
          by simp [GetPVCHostPathFromStore, h1, hb, hv, h2, hx]⟩

/-- Claim C4, witness: on the fixtures, a claim absent from the claim store
and a bound claim whose volume is absent from the volume store both make the
resolver fail with a non-nil error and an empty path. -/
theorem claim_C4_witness :
    (∃ e : GoError,
      GetPVCHostPathFromStore wPvcStore wPvStore wNs wAbsentName =
        .ret ("", some e)) ∧
    (∃ e : GoError,
      GetPVCHostPathFromStore wPvcStore wPvStore wNs wC4name =
        .ret ("", some e)) :=
  ⟨claim_C4_absence_hard_failure.1 wPvcStore wPvStore wNs wAbsentName
      none false none (by decide) (Or.inr rfl),
   claim_C4_absence_hard_failure.2 wPvcStore wPvStore wNs wC4name
      wClaimBoundMissing none false none (by decide) (by decide) (by decide)
      (by decide) (Or.inr rfl)⟩

/-- Claim C5: isPVCBlock is a pure predicate returning true exactly when the
volume-mode field is present and equals Block; an absent field or any other
value yields false. -/
theorem claim_C5_isPVCBlock_iff_block (pvc : PersistentVolumeClaim) :
    isPVCBlock pvc = true ↔
      pvc.spec.volumeMode = some PersistentVolumeMode.PersistentVolumeBlock := by
  unfold isPVCBlock
  cases h : pvc.spec.volumeMode <;> simp [h]

/-- Claim C6: IsPVCShared returns true exactly when ReadWriteMany occurs in
the access-modes list, at any position and for any list length; a list
without it, including the empty list, yields false. -/
theorem claim_C6_IsPVCShared_iff_rwx (pvc : PersistentVolumeClaim) :
    IsPVCShared pvc = true ↔
      PersistentVolumeAccessMode.ReadWriteMany ∈ pvc.spec.accessModes := by
  unfold IsPVCShared
  simp [List.any_eq_true]

/-- Claim C7: IsSharedPVCFromClient propagates every fetch error, NotFound
included, unchanged to the caller together with a false shared flag and the
pointer the client handed back. -/
theorem claim_C7_client_error_propagation (client : KubevirtClient)
    (ns claimName : String) (pvc : Option PersistentVolumeClaim) (e : APIError)
    (h : client.getPVC ns claimName = (pvc, some e)) :
    IsSharedPVCFromClient client ns claimName = .ret (pvc, false, some e) := by
  simp [IsSharedPVCFromClient, h]

/-- Claim C7, witness: the fixture client failing with NotFound makes the
shared-access query return that very error and a false shared flag. -/
theorem claim_C7_witness :
    IsSharedPVCFromClient wNotFoundClient wNs wC1name =
      .ret (none, false, some wNotFoundErr) :=
  claim_C7_client_error_propagation wNotFoundClient wNs wC1name none
    wNotFoundErr rfl

/-- Claim C8: absence of the claim is benign in both block-mode variants:
a store lookup reporting no entry and no error yields
(nil, false, false, nil) from IsPVCBlockFromStore, and a client reporting
NotFound yields (nil, false, false, nil) from IsPVCBlockFromClient. -/
theorem claim_C8_absence_benign :
    (∀ (store : Store) (ns n : String) (obj : Option StoreObj),
      store.getByKey (ns ++ "/" ++ n) = (obj, false, none) →
      IsPVCBlockFromStore store ns n = .ret (none, false, false, none)) ∧
    (∀ (client : KubevirtClient) (ns n : String)
      (pvc : Option PersistentVolumeClaim) (e : APIError),
      e.isNotFound = true → client.getPVC ns n = (pvc, some e) →
      IsPVCBlockFromClient client ns n = .ret (none, false, false, none)) := by
  constructor
  · intro store ns n obj h
    simp [IsPVCBlockFromStore, h]
  · intro client ns n pvc e he h
    simp [IsPVCBlockFromClient, h, errIsNotFound, he]

/-- Claim C8, witness: the fixture store, queried for the absent claim, and
the fixture NotFound client both answer with the benign quadruple. -/
theorem claim_C8_witness :
    IsPVCBlockFromStore wPvcStore wNs wAbsentName =
      .ret (none, false, false, none) ∧
    IsPVCBlockFromClient wNotFoundClient wNs wC1name =
      .ret (none, false, false, none) :=
  ⟨claim_C8_absence_benign.1 wPvcStore wNs wAbsentName none (by decide),
   claim_C8_absence_benign.2 wNotFoundClient wNs wC1name none wNotFoundErr
      rfl rfl⟩

/-- Claim C9: a successful, existing store lookup whose object is not a
claim record makes IsPVCBlockFromStore fail with the not-a-PVC error
carrying the unexpected object, and report exists = false. -/
theorem claim_C9_store_type_mismatch (store : Store) (ns claimName : String)
    (obj : Option StoreObj)
    (h : store.getByKey (ns ++ "/" ++ claimName) = (obj, true, none))
    (hm : ∀ c, obj ≠ some (StoreObj.pvcObj c)) :
    IsPVCBlockFromStore store ns claimName =
      .ret (none, false, false, some (GoError.notAPVC obj)) := by
  simp only [IsPVCBlockFromStore, h]
  cases obj with
  | none => simp
  | some o =>
    cases o with
    | pvcObj c => exact absurd rfl (hm c)
    | pvObj v => simp
    | otherObj d => simp

/-- Claim C9, witness: the fixture store entry under ns/bad, a non-claim
object, makes the store-variant block query fail with the type-mismatch
error naming that object and exists = false. -/
theorem claim_C9_witness :
    IsPVCBlockFromStore wPvcStore wNs wBadName =
      .ret (none, false, false, some (GoError.notAPVC wBadObj)) :=
  claim_C9_store_type_mismatch wPvcStore wNs wBadName wBadObj (by decide)
    (by intro c h; simp [wBadObj] at h)

/-- Claim C10: GetPVCHostPathFromStore never returns a usable path together
with an error: whenever it returns normally with a non-nil error, the path
component is the empty string. -/
theorem claim_C10_no_path_with_error (pvcStore pvStore : Store)
    (ns n p : String) (e : GoError)
    (h : GetPVCHostPathFromStore pvcStore pvStore ns n = .ret (p, some e)) :
    p = "" := by
  simp only [GetPVCHostPathFromStore] at h
  repeat' split at h
  all_goals simp at h
  all_goals simp [h.1]

/-- Claim C10, witness: querying the absent claim returns the empty path
with the not-found error, and the theorem applied there confirms the path
is empty. -/
theorem claim_C10_witness :
    GetPVCHostPathFromStore wPvcStore wPvStore wNs wAbsentName =
      .ret (wEmpty, some (GoError.unableToFindPVC wNs wAbsentName)) ∧
    wEmpty = "" :=
  ⟨by decide,
   claim_C10_no_path_with_error wPvcStore wPvStore wNs wAbsentName wEmpty
      (GoError.unableToFindPVC wNs wAbsentName) (by decide)⟩

end Types
